import Mathlib

/-!
Shallow embedding of the drawing application in `src/drawing_app.py`
(class `DrawingApp`).

GUI plumbing is modelled as explicit state and explicit dialog results:
every method that opens a modal dialog takes the dialog's result as an
`Option` argument, where `none` means the user cancelled the dialog.
The PIL image `self.image` and the Tk canvas `self.canvas` are modelled
as values recording their creation parameters and the list of drawing
operations they have received, which is the level of abstraction at
which the program manipulates them; PIL and Tk themselves are external
collaborators consumed as black boxes.

Python truthiness tests that the source uses (`if self.last_x and
self.last_y:`, `if new_color:`, ...) are translated literally:
`None`/`0`/the empty string are falsy.
-/

namespace DrawingApp

/-- A line segment as handed to `canvas.create_line` and `draw.line` in
`DrawingApp.paint`: the two endpoints, the colour and the stroke width. -/
structure Segment where
  x1 : Int
  y1 : Int
  x2 : Int
  y2 : Int
  color : String
  width : Int
deriving DecidableEq, Repr

/-- A drawing operation recorded on the PIL image: `draw.line` (from
`DrawingApp.paint`) or `draw.text` (from `DrawingApp.add_text`). -/
inductive DrawOp where
  | line (seg : Segment)
  | text (x y : Int) (s : String) (color : String)
deriving DecidableEq, Repr

/-- The PIL image `self.image`: created by `Image.new("RGB", (w, h), fill)`
and mutated only through the `ImageDraw` handle `self.draw`; we record the
creation parameters and the draw operations applied since creation. -/
structure PILImage where
  width : Int
  height : Int
  fill : String
  ops : List DrawOp
deriving DecidableEq, Repr

/-- The call `Image.new("RGB", (w, h), c)`: a fresh image, uniformly filled
with colour `c`, with no draw operations applied yet. -/
def PILImage.new (w h : Int) (c : String) : PILImage :=
  ⟨w, h, c, []⟩

/-- An item currently on the Tk canvas: a line created by
`canvas.create_line` in `paint` (recording its `capstyle=ROUND` and
`smooth=TRUE` options) or the photo-image placed by `canvas.create_image`
in `update_canvas`. -/
inductive CanvasItem where
  | line (seg : Segment) (roundCap : Bool) (smooth : Bool)
  | image (x y : Int) (img : PILImage)
deriving DecidableEq, Repr

/-- The Tk canvas widget `self.canvas`: its configured width, height and
background colour, and the list of items currently drawn on it
(`canvas.delete("all")` empties that list). -/
structure Canvas where
  width : Int
  height : Int
  bg : String
  items : List CanvasItem
deriving DecidableEq, Repr

/-- The mutable state of a `DrawingApp` instance: the canvas dimensions
`self.width`/`self.height`, the image buffer `self.image`, the canvas
widget, the tool state (`self.pen_color`, `self.previous_color`,
`self.brush_size`), the stroke cursor `self.last_x`/`self.last_y`, the
colour-preview label's background and the `self.photo` reference kept by
`update_canvas`. -/
structure AppState where
  width : Int
  height : Int
  image : PILImage
  canvas : Canvas
  pen_color : String
  last_x : Option Int
  last_y : Option Int
  previous_color : String
  brush_size : Int
  color_preview_bg : String
  photo : Option PILImage
deriving DecidableEq, Repr

/-- `DrawingApp.__init__`: a 600x400 white image and canvas, black pen,
absent stroke cursor, `previous_color` initialised to the pen colour,
brush size 1, and the colour-preview label showing the pen colour. -/
def initState : AppState where
  width := 600
  height := 400
  image := PILImage.new 600 400 "white"
  canvas := ⟨600, 400, "white", []⟩
  pen_color := "black"
  last_x := none
  last_y := none
  previous_color := "black"
  brush_size := 1
  color_preview_bg := "black"
  photo := none

/-- Python truthiness of an `Optional[int]` value: `None` and `0` are
falsy, every other integer is truthy. -/
def truthyOptInt : Option Int → Bool
  | none => false
  | some n => n != 0

/-- Python truthiness of a `str`: only the empty string is falsy. -/
def truthyStr (s : String) : Bool := s != ""

/-- Numeric value of a hexadecimal digit character (0 for any other
character). -/
def hexDigitVal (c : Char) : Nat :=
  if '0' ≤ c ∧ c ≤ '9' then c.toNat - 48
  else if 'a' ≤ c ∧ c ≤ 'f' then c.toNat - 97 + 10
  else if 'A' ≤ c ∧ c ≤ 'F' then c.toNat - 65 + 10
  else 0

/-- Resolution of a Tk colour string to an RGB triple, as the external
colour machinery performs it: the named colours the program uses plus
seven-character hex strings of the form produced by `pick_color`. -/
def colorToRGB (s : String) : Nat × Nat × Nat :=
  if s = "white" then (255, 255, 255)
  else if s = "black" then (0, 0, 0)
  else
    match s.toList with
    | ['#', r1, r2, g1, g2, b1, b2] =>
      (16 * hexDigitVal r1 + hexDigitVal r2,
       16 * hexDigitVal g1 + hexDigitVal g2,
       16 * hexDigitVal b1 + hexDigitVal b2)
    | _ => (0, 0, 0)

/-- Lowercase hexadecimal digit character for `n < 16`. -/
def hexChar (n : Nat) : Char :=
  if n < 10 then Char.ofNat (48 + n) else Char.ofNat (97 + n - 10)

/-- Two-digit lowercase hex rendering of a byte value, Python's `{:02x}`
format specifier for values below 256. -/
def byteToHex (n : Nat) : String :=
  String.mk [hexChar (n / 16 % 16), hexChar (n % 16)]

/-- The f-string of `pick_color` that turns an RGB triple into a Tk hex
colour string. -/
def rgbToHex (c : Nat × Nat × Nat) : String :=
  "#" ++ byteToHex c.1 ++ byteToHex c.2.1 ++ byteToHex c.2.2

/-- Whether a round-capped stroke of width `seg.width` covers the pixel
`(px, py)`: the squared distance from the pixel to the segment is at most
the squared half-width (inequalities cleared of fractions).  PIL's exact
rasterisation is an external collaborator; this geometric reading follows
the spec's description of a round-capped line of the brush width. -/
def segCovers (seg : Segment) (px py : Int) : Bool :=
  let dx := seg.x2 - seg.x1
  let dy := seg.y2 - seg.y1
  let vx := px - seg.x1
  let vy := py - seg.y1
  let den := dx * dx + dy * dy
  let num := vx * dx + vy * dy
  let w2 := seg.width * seg.width
  if den = 0 then decide (4 * (vx * vx + vy * vy) ≤ w2)
  else if num ≤ 0 then decide (4 * (vx * vx + vy * vy) ≤ w2)
  else if den ≤ num then
    let ux := px - seg.x2
    let uy := py - seg.y2
    decide (4 * (ux * ux + uy * uy) ≤ w2)
  else decide (4 * ((vx * vx + vy * vy) * den - num * num) ≤ w2 * den)

/-- The colour a draw operation contributes at a pixel, if any.  Text
rasterisation depends on the external font renderer and is not modelled
(no claim reads pixels under text). -/
def opPixel (op : DrawOp) (px py : Int) : Option (Nat × Nat × Nat) :=
  match op with
  | DrawOp.line seg => if segCovers seg px py then some (colorToRGB seg.color) else none
  | DrawOp.text _ _ _ _ => none

/-- `image.getpixel((px, py))`: the base fill colour, overpainted by the
recorded draw operations in order. -/
def PILImage.getpixel (img : PILImage) (px py : Int) : Nat × Nat × Nat :=
  img.ops.foldl (fun acc op => (opPixel op px py).getD acc) (colorToRGB img.fill)

/-- The line segments currently on the canvas widget, in drawing order. -/
def Canvas.segments (c : Canvas) : List Segment :=
  c.items.filterMap fun it =>
    match it with
    | CanvasItem.line seg _ _ => some seg
    | _ => none

/-- The line segments recorded on the image buffer, in drawing order. -/
def PILImage.segments (img : PILImage) : List Segment :=
  img.ops.filterMap fun op =>
    match op with
    | DrawOp.line seg => some seg
    | _ => none

/-- `DrawingApp.update_canvas`: `canvas.delete("all")`, then build a
`PhotoImage` from the current image, keep it in `self.photo`, and place it
on the canvas at (0, 0). -/
def update_canvas (s : AppState) : AppState :=
  { s with
    canvas := { s.canvas with items := [CanvasItem.image 0 0 s.image] }
    photo := some s.image }

/-- `DrawingApp.change_background_color`: `new_color` is the result of
`colorchooser.askcolor()[1]` (`none` on cancellation).  If truthy, set the
canvas background, replace the image with a fresh one filled with the new
colour, and refresh the canvas from it. -/
def change_background_color (s : AppState) (new_color : Option String) : AppState :=
  match new_color with
  | none => s
  | some c =>
    if truthyStr c then
      update_canvas
        { s with
          canvas := { s.canvas with bg := c }
          image := PILImage.new s.width s.height c }
    else s

/-- `DrawingApp.add_text`: `text` is the result of
`simpledialog.askstring` and `ox`, `oy` the results of the two
`simpledialog.askinteger` prompts (`none` on cancellation).  If the text
is truthy and both coordinates are not `None`, stamp the text on the
image in the current pen colour and refresh the display. -/
def add_text (s : AppState) (text : Option String) (ox oy : Option Int) : AppState :=
  match text with
  | none => s
  | some t =>
    if truthyStr t then
      match ox, oy with
      | some x, some y =>
        update_canvas
          { s with image := { s.image with ops := s.image.ops ++ [DrawOp.text x y t s.pen_color] } }
      | _, _ => s
    else s

/-- `DrawingApp.clear_canvas`: `canvas.delete("all")` and a fresh white
image (with a fresh `ImageDraw` handle). -/
def clear_canvas (s : AppState) : AppState :=
  { s with
    canvas := { s.canvas with items := [] }
    image := PILImage.new s.width s.height "white" }

/-- `DrawingApp.change_canvas_size`: `ow` and `oh` are the results of the
two bounded `askinteger` prompts (`none` on cancellation; the dialog
enforces 100-1500 and 100-1000).  If both are truthy, update the stored
dimensions, reconfigure the canvas widget, allocate a fresh white image
and call `clear_canvas`. -/
def change_canvas_size (s : AppState) (ow oh : Option Int) : AppState :=
  if truthyOptInt ow && truthyOptInt oh then
    let w := ow.getD 0
    let h := oh.getD 0
    clear_canvas
      { s with
        width := w
        height := h
        canvas := { s.canvas with width := w, height := h }
        image := PILImage.new w h "white" }
  else s

/-- `DrawingApp.update_brush_size`: store the selected size (the dropdown
offers 1, 2, 5 and 10). -/
def update_brush_size (s : AppState) (n : Int) : AppState :=
  { s with brush_size := n }

/-- `DrawingApp.paint`: on a motion event at `(ex, ey)`, if `last_x` and
`last_y` are both truthy (Python: `if self.last_x and self.last_y:`),
draw the segment from the last position to the event position on both the
canvas (`create_line` with round caps and smoothing) and the image
(`draw.line`); then set the cursor to the event position. -/
def paint (s : AppState) (ex ey : Int) : AppState :=
  let s1 :=
    if truthyOptInt s.last_x && truthyOptInt s.last_y then
      let lx := s.last_x.getD 0
      let ly := s.last_y.getD 0
      { s with
        canvas := { s.canvas with
          items := s.canvas.items ++
            [CanvasItem.line ⟨lx, ly, ex, ey, s.pen_color, s.brush_size⟩ true true] }
        image := { s.image with
          ops := s.image.ops ++ [DrawOp.line ⟨lx, ly, ex, ey, s.pen_color, s.brush_size⟩] } }
    else s
  { s1 with last_x := some ex, last_y := some ey }

/-- `DrawingApp.reset` (bound to button release): clear the stroke cursor. -/
def reset (s : AppState) : AppState :=
  { s with last_x := none, last_y := none }

/-- `DrawingApp.choose_color`: `new_color` is
`colorchooser.askcolor(color=self.pen_color)[1]` (`none` on
cancellation).  If truthy, it becomes the pen colour and the preview
label is updated. -/
def choose_color (s : AppState) (new_color : Option String) : AppState :=
  match new_color with
  | none => s
  | some c =>
    if truthyStr c then
      { s with pen_color := c, color_preview_bg := c }
    else s

/-- `DrawingApp.use_eraser`: set the pen colour to the literal `'white'`
and update the preview label.  (The docstring announces saving the current
colour into `self.previous_color`, but no such assignment is present.) -/
def use_eraser (s : AppState) : AppState :=
  { s with pen_color := "white", color_preview_bg := "white" }

/-- `DrawingApp.pick_color`: if `(x, y)` lies inside
`[0, width) x [0, height)`, read the image pixel there, format it as a
hex colour, and make it the pen colour; otherwise do nothing. -/
def pick_color (s : AppState) (x y : Int) : AppState :=
  if 0 ≤ x ∧ x < s.width ∧ 0 ≤ y ∧ y < s.height then
    let c := rgbToHex (s.image.getpixel x y)
    { s with pen_color := c, color_preview_bg := c }
  else s

/-- `DrawingApp.save_image`: `file_path` is the result of
`filedialog.asksaveasfilename` (`none` on cancellation, and Tk reports
cancellation of this dialog as the empty string, which is equally falsy).
If truthy, append `.png` when missing and write the current image there;
the second component records the file written, if any. -/
def save_image (s : AppState) (file_path : Option String) :
    AppState × Option (String × PILImage) :=
  match file_path with
  | none => (s, none)
  | some p =>
    if truthyStr p then
      let p2 := if p.endsWith ".png" then p else p ++ ".png"
      (s, some (p2, s.image))
    else (s, none)

/-- A sequence of `paint` motion events folded over the state. -/
def paintSeq (s : AppState) : List (Int × Int) → AppState
  | [] => s
  | (x, y) :: rest => paintSeq (paint s x y) rest

/-- A single `paint` call appends the same list of segments (empty or one
segment) to the canvas and to the image buffer. -/
theorem paint_segments (s : AppState) (ex ey : Int) :
    ∃ d : List Segment,
      (paint s ex ey).canvas.segments = s.canvas.segments ++ d ∧
      (paint s ex ey).image.segments = s.image.segments ++ d := by
  by_cases h : (truthyOptInt s.last_x && truthyOptInt s.last_y) = true
  · refine ⟨[⟨s.last_x.getD 0, s.last_y.getD 0, ex, ey, s.pen_color, s.brush_size⟩], ?_, ?_⟩ <;>
      simp [paint, h, Canvas.segments, PILImage.segments, List.filterMap_append]
  · refine ⟨[], ?_, ?_⟩ <;> simp [paint, h]

/-- Claim C1 (amended): `clear_canvas` reallocates the bitmap buffer as a
fresh image filled with the literal colour white — not with the current
background colour — so reading any pixel of the buffer after `clear_canvas`
returns white. -/
theorem clear_canvas_pixel_white (s : AppState) (x y : Int) :
    (clear_canvas s).image = PILImage.new s.width s.height "white" ∧
    PILImage.getpixel (clear_canvas s).image x y = (255, 255, 255) :=
  ⟨rfl, rfl⟩

/-- Claim C1 as stated is false: after `change_background_color` to red,
`clear_canvas` fills the buffer with white, so a pixel read does not return
the current background colour. -/
theorem clear_canvas_ignores_background_cex :
    (let s := clear_canvas (change_background_color initState (some "#ff0000"))
     s.canvas.bg = "#ff0000" ∧ s.image.fill ≠ s.canvas.bg ∧
     PILImage.getpixel s.image 0 0 ≠ colorToRGB s.canvas.bg) := by decide

/-- Claim C2 (amended): `use_eraser` sets the pen colour to the literal
colour white; this equals the current background colour exactly when the
background is white. -/
theorem use_eraser_sets_white (s : AppState) :
    (use_eraser s).pen_color = "white" ∧
    ((use_eraser s).pen_color = s.canvas.bg ↔ s.canvas.bg = "white") := by
  refine ⟨rfl, ?_⟩
  constructor
  · intro h
    exact h.symm
  · intro h
    exact h.symm

/-- Claim C2 as stated is false: after the background has been changed to
red, `use_eraser` makes the pen white, which differs from the background. -/
theorem use_eraser_not_background_cex :
    (let s := change_background_color initState (some "#ff0000")
     (use_eraser s).pen_color ≠ s.canvas.bg) := by decide

/-- Claim C3: with the stored cursor present but equal to (0, 5), the guard
`if self.last_x and self.last_y:` treats the zero coordinate as falsy, so
`paint 3 4` draws nothing on either surface and only moves the cursor —
contradicting the method's own documented behaviour for a present cursor. -/
theorem paint_zero_cursor_draws_nothing :
    (let s0 : AppState := { initState with last_x := some 0, last_y := some 5 }
     let s1 := paint s0 3 4
     s0.last_x.isSome ∧ s0.last_y.isSome ∧
     s1.canvas.items = [] ∧ s1.image.ops = [] ∧
     s1.last_x = some 3 ∧ s1.last_y = some 4) := by decide

/-- Claim C4: `use_eraser` never writes `previous_color` (despite its
docstring): the field is unchanged by the call, and in particular after the
pen has been changed to red, erasing leaves `previous_color` at its initial
value black instead of saving red. -/
theorem use_eraser_previous_color_unchanged (s : AppState) :
    (use_eraser s).previous_color = s.previous_color ∧
    (choose_color initState (some "#ff0000")).pen_color = "#ff0000" ∧
    (use_eraser (choose_color initState (some "#ff0000"))).previous_color = "black" :=
  ⟨rfl, by decide, by decide⟩

/-- Claim C5: any sequence of `paint` calls appends the same list of new
segments to the visible canvas and to the bitmap buffer: equally many, and
pairwise identical in endpoints, colour and width. -/
theorem paint_canvas_image_segments_agree (s : AppState) (ps : List (Int × Int)) :
    ∃ L : List Segment,
      (paintSeq s ps).canvas.segments = s.canvas.segments ++ L ∧
      (paintSeq s ps).image.segments = s.image.segments ++ L := by
  induction ps generalizing s with
  | nil => exact ⟨[], by simp [paintSeq], by simp [paintSeq]⟩
  | cons p rest ih =>
    obtain ⟨px, py⟩ := p
    obtain ⟨d, hc, hi⟩ := paint_segments s px py
    obtain ⟨L, hc2, hi2⟩ := ih (paint s px py)
    refine ⟨d ++ L, ?_, ?_⟩
    · show (paintSeq (paint s px py) rest).canvas.segments = _
      rw [hc2, hc, List.append_assoc]
    · show (paintSeq (paint s px py) rest).image.segments = _
      rw [hi2, hi, List.append_assoc]

/-- Claim C6: `pick_color` outside `[0, width) x [0, height)` leaves the
whole state — in particular the pen colour — unchanged. -/
theorem pick_color_out_of_bounds_noop (s : AppState) (x y : Int)
    (h : ¬ (0 ≤ x ∧ x < s.width ∧ 0 ≤ y ∧ y < s.height)) :
    pick_color s x y = s := by
  simp [pick_color, h]

/-- Witness for claim C6 at (600, 0) on the initial 600x400 state. -/
theorem pick_color_out_of_bounds_noop_witness :
    ¬ (0 ≤ (600 : Int) ∧ (600 : Int) < initState.width ∧
        0 ≤ (0 : Int) ∧ (0 : Int) < initState.height) ∧
    pick_color initState 600 0 = initState :=
  ⟨by decide, pick_color_out_of_bounds_noop initState 600 0 (by decide)⟩

/-- Claim C7: cancelling the modal dialog of `choose_color`,
`change_background_color`, `add_text` (at any of its three prompts),
`change_canvas_size` (at either prompt) or `save_image` leaves the
application state unchanged, and `save_image` writes no file. -/
theorem dialog_cancel_noop (s : AppState) (t : String) (ox oy ow oh : Option Int) :
    choose_color s none = s ∧
    change_background_color s none = s ∧
    add_text s none ox oy = s ∧
    add_text s (some t) none oy = s ∧
    add_text s (some t) ox none = s ∧
    change_canvas_size s none oh = s ∧
    change_canvas_size s ow none = s ∧
    save_image s none = (s, none) := by
  refine ⟨rfl, rfl, rfl, ?_, ?_, ?_, ?_, rfl⟩
  · cases h : truthyStr t <;> simp [add_text, h]
  · cases ox <;> cases h : truthyStr t <;> simp [add_text, h]
  · simp [change_canvas_size, truthyOptInt]
  · cases ow <;> simp [change_canvas_size, truthyOptInt]

/-- Claim C8: after `reset`, the next `paint` draws no segment on either
surface and only sets the cursor to the event position. -/
theorem reset_then_paint_no_segment (s : AppState) (x y : Int) :
    (paint (reset s) x y).canvas = s.canvas ∧
    (paint (reset s) x y).image = s.image ∧
    paint (reset s) x y = { reset s with last_x := some x, last_y := some y } :=
  ⟨rfl, rfl, rfl⟩

/-- Claim C9: for in-range dimensions, `change_canvas_size` resizes the
stored dimensions, the canvas widget and the image buffer to the new size
filled white with no prior content, and a following `clear_canvas` keeps
exactly those dimensions. -/
theorem change_canvas_size_resizes_white (s : AppState) (w h : Int)
    (hw : 100 ≤ w ∧ w ≤ 1500) (hh : 100 ≤ h ∧ h ≤ 1000) :
    (change_canvas_size s (some w) (some h)).width = w ∧
    (change_canvas_size s (some w) (some h)).height = h ∧
    (change_canvas_size s (some w) (some h)).canvas.width = w ∧
    (change_canvas_size s (some w) (some h)).canvas.height = h ∧
    (change_canvas_size s (some w) (some h)).image = PILImage.new w h "white" ∧
    (clear_canvas (change_canvas_size s (some w) (some h))).image =
      PILImage.new w h "white" := by
  have hw0 : (w != 0) = true := by
    simp only [bne_iff_ne, ne_eq]
    omega
  have hh0 : (h != 0) = true := by
    simp only [bne_iff_ne, ne_eq]
    omega
  simp [change_canvas_size, truthyOptInt, clear_canvas, hw0, hh0, PILImage.new]

/-- Witness for claim C9 at the spec's concrete instance 800x300. -/
theorem change_canvas_size_resizes_white_witness :
    ((100 : Int) ≤ 800 ∧ (800 : Int) ≤ 1500) ∧
    ((100 : Int) ≤ 300 ∧ (300 : Int) ≤ 1000) ∧
    (change_canvas_size initState (some 800) (some 300)).width = 800 ∧
    (change_canvas_size initState (some 800) (some 300)).height = 300 ∧
    (clear_canvas (change_canvas_size initState (some 800) (some 300))).image =
      PILImage.new 800 300 "white" := by
  refine ⟨by decide, by decide, ?_, ?_, ?_⟩
  · exact (change_canvas_size_resizes_white initState 800 300 (by decide) (by decide)).1
  · exact (change_canvas_size_resizes_white initState 800 300 (by decide) (by decide)).2.1
  · exact (change_canvas_size_resizes_white initState 800 300 (by decide) (by decide)).2.2.2.2.2

/-- Claim C10 (amended): `clear_canvas` changes only the canvas contents
and the image buffer — dimensions, pen colour, brush size, `previous_color`
and the stroke cursor survive — and a stroke in progress whose cursor
coordinates are both nonzero continues: the next `paint` draws the segment
from the pre-clear cursor to the event position on both surfaces. -/
theorem clear_canvas_frame (s : AppState) (a b x y : Int)
    (hx : s.last_x = some a) (hy : s.last_y = some b) (ha : a ≠ 0) (hb : b ≠ 0) :
    (clear_canvas s).width = s.width ∧
    (clear_canvas s).height = s.height ∧
    (clear_canvas s).pen_color = s.pen_color ∧
    (clear_canvas s).brush_size = s.brush_size ∧
    (clear_canvas s).previous_color = s.previous_color ∧
    (clear_canvas s).last_x = s.last_x ∧
    (clear_canvas s).last_y = s.last_y ∧
    (paint (clear_canvas s) x y).canvas.items =
      [CanvasItem.line ⟨a, b, x, y, s.pen_color, s.brush_size⟩ true true] ∧
    (paint (clear_canvas s) x y).image.ops =
      [DrawOp.line ⟨a, b, x, y, s.pen_color, s.brush_size⟩] := by
  refine ⟨rfl, rfl, rfl, rfl, rfl, rfl, rfl, ?_, ?_⟩ <;>
    simp [paint, clear_canvas, truthyOptInt, hx, hy, ha, hb, PILImage.new]

/-- Witness for claim C10: cursor at (10, 20), then clear, then paint at
(3, 4). -/
theorem clear_canvas_frame_witness :
    (let s : AppState := { initState with last_x := some 10, last_y := some 20 }
     s.last_x = some 10 ∧ s.last_y = some 20 ∧
     (clear_canvas s).last_x = s.last_x ∧
     (paint (clear_canvas s) 3 4).canvas.items =
       [CanvasItem.line ⟨10, 20, 3, 4, s.pen_color, s.brush_size⟩ true true] ∧
     (paint (clear_canvas s) 3 4).image.ops =
       [DrawOp.line ⟨10, 20, 3, 4, s.pen_color, s.brush_size⟩]) := by
  refine ⟨rfl, rfl, ?_, ?_, ?_⟩
  · exact (clear_canvas_frame _ 10 20 3 4 rfl rfl (by decide) (by decide)).2.2.2.2.2.1
  · exact (clear_canvas_frame _ 10 20 3 4 rfl rfl (by decide) (by decide)).2.2.2.2.2.2.2.1
  · exact (clear_canvas_frame _ 10 20 3 4 rfl rfl (by decide) (by decide)).2.2.2.2.2.2.2.2

/-- Claim C10 as stated is false in its last consequence: with the stroke
cursor present at (0, 5), the cursor does survive `clear_canvas`, yet the
next `paint` draws no connecting segment because the zero coordinate is
falsy in the paint guard. -/
theorem clear_canvas_stroke_zero_cursor_cex :
    (let s : AppState := { initState with last_x := some 0, last_y := some 5 }
     s.last_x.isSome ∧ s.last_y.isSome ∧
     (clear_canvas s).last_x = s.last_x ∧ (clear_canvas s).last_y = s.last_y ∧
     (paint (clear_canvas s) 3 4).canvas.items = [] ∧
     (paint (clear_canvas s) 3 4).image.ops = []) := by decide

end DrawingApp
